import Mathlib

/-!
Shallow embedding of `src/NatlinkSource/natlink_p.c`, the MIDL-generated
proxy/stub translation unit for the COM interface `IDgnAppSupport`.

The file's data is static: interface GUIDs, a transfer-syntax identifier,
empty-ish NDR format strings, a proxy vtbl, a stub vtbl, and the single
exported function `_natlink_IID_Lookup`.  Pointer-typed C fields are
embedded as the values they point to; the out-parameter `int *pIndex` of
the lookup is embedded by explicit state passing (the cell's contents
before and after the call).  Where a claim depends on behaviour of the
external RPC runtime (`rpcrt4` / `rpcproxy.h` generic dispatch), that
behaviour is modelled from the spec and clearly marked as such.
-/

/-- A COM interface identifier (128-bit GUID), laid out as in the Windows
`IID` struct: one 32-bit word, two 16-bit words, and eight bytes.
Compared only for (decidable) equality, matching `memcmp` over the 16
bytes. -/
structure IID where
  Data1 : Nat
  Data2 : Nat
  Data3 : Nat
  Data4 : List Nat
deriving DecidableEq, Repr

/-- GUID of `IUnknown`, from the comment block of the source file:
`{0x00000000,0x0000,0x0000,{0xC0,0x00,0x00,0x00,0x00,0x00,0x00,0x46}}`. -/
def IID_IUnknown : IID :=
  ⟨0x00000000, 0x0000, 0x0000, [0xC0, 0x00, 0x00, 0x00, 0x00, 0x00, 0x00, 0x46]⟩

/-- GUID of `IDispatch`, from the comment block of the source file:
`{0x00020400,0x0000,0x0000,{0xC0,0x00,0x00,0x00,0x00,0x00,0x00,0x46}}`. -/
def IID_IDispatch : IID :=
  ⟨0x00020400, 0x0000, 0x0000, [0xC0, 0x00, 0x00, 0x00, 0x00, 0x00, 0x00, 0x46]⟩

/-- GUID of `IDgnAppSupport`, from the comment block of the source file:
`{0xcadd17a0,0x482a,0x484c,{0x94,0x51,0x7a,0xcb,0xa6,0xf1,0x27,0x2f}}`.
The constant itself lives in the companion `natlink_i.c`; this value is
the one recorded in `natlink_p.c`. -/
def IID_IDgnAppSupport : IID :=
  ⟨0xcadd17a0, 0x482a, 0x484c, [0x94, 0x51, 0x7a, 0xcb, 0xa6, 0xf1, 0x27, 0x2f]⟩

/-- RPC version pair, as in the Windows `RPC_VERSION` struct. -/
structure RPC_VERSION where
  MajorVersion : Nat
  MinorVersion : Nat
deriving DecidableEq, Repr

/-- RPC syntax identifier: a GUID plus a version, as in the Windows
`RPC_SYNTAX_IDENTIFIER` struct. -/
structure RPC_SYNTAX_IDENTIFIER where
  SyntaxGUID : IID
  SyntaxVersion : RPC_VERSION
deriving DecidableEq, Repr

/-- `_RpcTransferSyntax` from the source:
`{{0x8A885D04,0x1CEB,0x11C9,{0x9F,0xE8,0x08,0x00,0x2B,0x10,0x48,0x60}},{2,0}}`. -/
def _RpcTransferSyntax : RPC_SYNTAX_IDENTIFIER :=
  ⟨⟨0x8A885D04, 0x1CEB, 0x11C9, [0x9F, 0xE8, 0x08, 0x00, 0x2B, 0x10, 0x48, 0x60]⟩, ⟨2, 0⟩⟩

/-- `TYPE_FORMAT_STRING_SIZE` from the source. -/
def TYPE_FORMAT_STRING_SIZE : Nat := 3

/-- `PROC_FORMAT_STRING_SIZE` from the source. -/
def PROC_FORMAT_STRING_SIZE : Nat := 1

/-- Layout of `natlink_MIDL_TYPE_FORMAT_STRING`: a pad short and a byte
array of `TYPE_FORMAT_STRING_SIZE` bytes. -/
structure natlink_MIDL_TYPE_FORMAT_STRING where
  Pad : Int
  Format : List Nat
deriving DecidableEq, Repr

/-- Layout of `natlink_MIDL_PROC_FORMAT_STRING`: a pad short and a byte
array of `PROC_FORMAT_STRING_SIZE` bytes. -/
structure natlink_MIDL_PROC_FORMAT_STRING where
  Pad : Int
  Format : List Nat
deriving DecidableEq, Repr

/-- `natlink__MIDL_ProcFormatString` from the source: pad `0` and the
single byte `0x0`. -/
def natlink__MIDL_ProcFormatString : natlink_MIDL_PROC_FORMAT_STRING :=
  ⟨0, [0x0]⟩

/-- `natlink__MIDL_TypeFormatString` from the source: pad `0`, then
`NdrFcShort(0x0)` (the two bytes `0x0, 0x0`) followed by the byte `0x0`. -/
def natlink__MIDL_TypeFormatString : natlink_MIDL_TYPE_FORMAT_STRING :=
  ⟨0, [0x0, 0x0, 0x0]⟩

/-- Conversion of a C integer to `unsigned short`: reduction modulo
`2^16`, so `(unsigned short) -1` is `65535 = 2^16 - 1`. -/
def ushort (i : Int) : Nat := (i % 2 ^ 16).toNat

/-- `IDgnAppSupport_FormatStringOffsetTable` from the source: four
`(unsigned short) -1` entries — `65535`, the MIDL sentinel for "no
format-string description: delegate to the base interface" — and a
trailing `0`.  The table is addressed from ordinal 3 (the pointer stored
in the proxy/server info is `&IDgnAppSupport_FormatStringOffsetTable[-3]`),
so these five entries correspond to ordinals 3,4,5,6,7. -/
def IDgnAppSupport_FormatStringOffsetTable : List Nat :=
  [ushort (-1), ushort (-1), ushort (-1), ushort (-1), ushort 0]

/-- The generic base-capability proxy routines installed in the proxy
vtbl (supplied by the RPC runtime; only their identity matters here). -/
inductive ProxyFn where
  | IUnknown_QueryInterface_Proxy
  | IUnknown_AddRef_Proxy
  | IUnknown_Release_Proxy
deriving DecidableEq, Repr

/-- `CINTERFACE_PROXY_VTABLE(7)`: a proxy header (stubless proxy info
pointer, here the null pointer, and the interface IID) followed by a
7-entry function-pointer array; a `0` entry in the C initializer is
embedded as `none`. -/
structure CInterfaceProxyVtbl where
  pStublessProxyInfo : Option Unit
  piid : IID
  Vtbl : List (Option ProxyFn)
deriving DecidableEq, Repr

/-- `_IDgnAppSupportProxyVtbl` from the source: header `{0, &IID_IDgnAppSupport}`,
then the three generic `IUnknown` proxy routines and four `0` entries for
the `IDispatch` slots. -/
def _IDgnAppSupportProxyVtbl : CInterfaceProxyVtbl :=
  { pStublessProxyInfo := none
    piid := IID_IDgnAppSupport
    Vtbl := [some .IUnknown_QueryInterface_Proxy,
             some .IUnknown_AddRef_Proxy,
             some .IUnknown_Release_Proxy,
             none, none, none, none] }

/-- A server-side stub dispatch routine; the only one this file installs
is the runtime's `STUB_FORWARDING_FUNCTION`. -/
inductive RpcStubFn where
  | STUB_FORWARDING_FUNCTION
deriving DecidableEq, Repr

/-- `IDgnAppSupport_table` from the source: four forwarding entries, for
ordinals 3..6 (the table is referenced as `&IDgnAppSupport_table[-3]`). -/
def IDgnAppSupport_table : List RpcStubFn :=
  [.STUB_FORWARDING_FUNCTION, .STUB_FORWARDING_FUNCTION,
   .STUB_FORWARDING_FUNCTION, .STUB_FORWARDING_FUNCTION]

/-- The slice of `MIDL_SERVER_INFO` (`IDgnAppSupport_ServerInfo`) the
claims need: the proc format string and the format-string offset table.
The C struct stores `&IDgnAppSupport_FormatStringOffsetTable[-3]`; that
base-offset pointer arithmetic is embedded as a partial function from the
method ordinal. -/
structure MIDL_SERVER_INFO where
  pFormatString : List Nat
  FmtStringOffset : Int → Option Nat

/-- `IDgnAppSupport_ServerInfo` from the source. -/
def IDgnAppSupport_ServerInfo : MIDL_SERVER_INFO :=
  { pFormatString := natlink__MIDL_ProcFormatString.Format
    FmtStringOffset := fun k =>
      if 3 ≤ k then IDgnAppSupport_FormatStringOffsetTable.get? (k - 3).toNat else none }

/-- The slice of `CInterfaceStubVtbl` the claims need: the interface IID,
the server info, the declared dispatch-table size, and the dispatch table
(stored as `&IDgnAppSupport_table[-3]`, embedded as a partial function
from the method ordinal). -/
structure CInterfaceStubVtbl where
  piid : IID
  pServerInfo : MIDL_SERVER_INFO
  DispatchTableCount : Nat
  DispatchTable : Int → Option RpcStubFn

/-- `_IDgnAppSupportStubVtbl` from the source: IID, server info, count 7,
and the forwarding table based at ordinal 3. -/
def _IDgnAppSupportStubVtbl : CInterfaceStubVtbl :=
  { piid := IID_IDgnAppSupport
    pServerInfo := IDgnAppSupport_ServerInfo
    DispatchTableCount := 7
    DispatchTable := fun k =>
      if 3 ≤ k then IDgnAppSupport_table.get? (k - 3).toNat else none }

/-- `_natlink_ProxyVtblList` from the source (the terminating null pointer
of the C array is dropped; the list holds the actual entries). -/
def _natlink_ProxyVtblList : List CInterfaceProxyVtbl := [_IDgnAppSupportProxyVtbl]

/-- `_natlink_StubVtblList` from the source. -/
def _natlink_StubVtblList : List CInterfaceStubVtbl := [_IDgnAppSupportStubVtbl]

/-- `_natlink_InterfaceNamesList` from the source. -/
def _natlink_InterfaceNamesList : List String := ["IDgnAppSupport"]

/-- `_natlink_BaseIIDList` from the source. -/
def _natlink_BaseIIDList : List IID := [IID_IDispatch]

/-- The `_natlink_CHECK_IID(n)` macro, which expands to
`IID_GENERIC_CHECK_IID(_natlink, pIID, n)`: a `memcmp` of the requested
IID against the IID of the n-th registered vtbl.  `memcmp` is nonzero
(here: `true`) iff the identities differ; an out-of-range index never
matches. -/
def _natlink_CHECK_IID (pIID : IID) (n : Nat) : Bool :=
  match _natlink_StubVtblList.get? n with
  | some v => decide (pIID ≠ v.piid)
  | none => true

/-- `_natlink_IID_Lookup` from the source.  The C signature is
`int _natlink_IID_Lookup(const IID *pIID, int *pIndex)`; the out-cell
`*pIndex` is embedded by state passing: `pIndex` is the cell's contents
before the call, and the result is `(return value, cell contents after
the call)`.  The body: if `!_natlink_CHECK_IID(0)` then `*pIndex = 0;
return 1;` else `return 0;` (the cell untouched). -/
def _natlink_IID_Lookup (pIID : IID) (pIndex : Int) : Int × Int :=
  if ! _natlink_CHECK_IID pIID 0 then (1, 0) else (0, pIndex)

/-- Outcome of a server-side stub dispatch. -/
inductive DispatchOutcome where
  | forwardedToBase
  | customInvoke (offset : Nat)
  | ordinalOutOfRange
deriving DecidableEq, Repr

/-- Modelled from the spec: the generic stub dispatcher is supplied by the
external RPC runtime (`CStdStubBuffer_Invoke` / `NdrStubCall2`), not by
this translation unit.  Per the spec it validates the ordinal against the
declared table size before anything else, handles the three
base-capability (`IUnknown`) slots itself, and otherwise consults the
interface's tables: a forwarding entry whose format-string offset is the
`-1` sentinel delegates to the base capability, while a real offset would
trigger argument deserialization at that offset.  The tables themselves
(`_IDgnAppSupportStubVtbl` and its server info) come from the source. -/
def stubDispatch (v : CInterfaceStubVtbl) (k : Int) : DispatchOutcome :=
  if k < 0 ∨ (v.DispatchTableCount : Int) ≤ k then .ordinalOutOfRange
  else if k < 3 then .forwardedToBase
  else
    match v.DispatchTable k, v.pServerInfo.FmtStringOffset k with
    | some .STUB_FORWARDING_FUNCTION, some off =>
        if off = 2 ^ 16 - 1 then .forwardedToBase else .customInvoke off
    | _, _ => .ordinalOutOfRange

/-- Outcome of a client-side proxy invocation. -/
inductive ProxyOutcome where
  | delegated (f : ProxyFn)
  | failedUnset
  | ordinalOutOfRange
deriving DecidableEq, Repr

/-- Modelled from the spec: invoking slot `k` of a proxy vtbl calls the
installed routine when the slot holds one (delegation to the generic
base-capability implementation), must fail or no-op when the slot is
unset (a `0` entry in the C initializer), and is an out-of-bounds failure
past the table.  The vtbl itself comes from the source. -/
def proxyInvoke (v : CInterfaceProxyVtbl) (k : Nat) : ProxyOutcome :=
  match v.Vtbl.get? k with
  | some (some f) => .delegated f
  | some none => .failedUnset
  | none => .ordinalOutOfRange

/-- Errors surfaced by the translation unit's load-time gates. -/
inductive StubLoadError where
  | versionMismatch
deriving DecidableEq, Repr

/-- The slice of `ExtendedProxyFileInfo` the claims need. -/
structure ExtendedProxyFileInfo where
  pProxyVtblList : List CInterfaceProxyVtbl
  pStubVtblList : List CInterfaceStubVtbl
  pNamesList : List String
  pDelegatedIIDs : List IID
  pIIDLookupRtn : IID → Int → Int × Int
  TableSize : Nat
  TableVersion : Nat

/-- `natlink_ProxyFileInfo` from the source. -/
def natlink_ProxyFileInfo : ExtendedProxyFileInfo :=
  { pProxyVtblList := _natlink_ProxyVtblList
    pStubVtblList := _natlink_StubVtblList
    pNamesList := _natlink_InterfaceNamesList
    pDelegatedIIDs := _natlink_BaseIIDList
    pIIDLookupRtn := _natlink_IID_Lookup
    TableSize := 1
    TableVersion := 2 }

/-- `TARGET_IS_NT60_OR_LATER` (from `rpcproxy.h`): the build-target
Windows version macro is at least `0x600` (Windows Vista / NT 6.0). -/
def TARGET_IS_NT60_OR_LATER (win32Winnt : Nat) : Bool :=
  decide (0x600 ≤ win32Winnt)

/-- The translation unit's version gate, from the source's preprocessor
block `#if !(TARGET_IS_NT60_OR_LATER) #error ... RPC_X_WRONG_STUB_VERSION`:
when the host/target capability version is below NT 6.0 the unit refuses
to build with a version-mismatch error, and none of the proxy/stub tables
(`natlink_ProxyFileInfo` and everything it references) is produced. -/
def natlink_module (win32Winnt : Nat) : Except StubLoadError ExtendedProxyFileInfo :=
  if TARGET_IS_NT60_OR_LATER win32Winnt then .ok natlink_ProxyFileInfo
  else .error .versionMismatch

/-! ## Theorems -/

/-- Closed form of the lookup: success `(1, 0)` exactly on the registered
IID, otherwise `(0, m)` with the out-cell untouched. -/
theorem natlink_IID_Lookup_eq (I : IID) (m : Int) :
    _natlink_IID_Lookup I m = if I = IID_IDgnAppSupport then (1, 0) else (0, m) := by
  by_cases h : I = IID_IDgnAppSupport <;>
    simp [_natlink_IID_Lookup, _natlink_CHECK_IID, _natlink_StubVtblList,
      _IDgnAppSupportStubVtbl, h]

/-- Claim C1: for every requested identity `I`, `_natlink_IID_Lookup`
reports success (return value 1) with the descriptor index (0) if and
only if `I` equals the single registered interface identity, the GUID of
`IDgnAppSupport`; for every other identity it reports NotFound (return
value 0). -/
theorem natlink_IID_Lookup_success_iff (I : IID) (m : Int) :
    _natlink_StubVtblList.map CInterfaceStubVtbl.piid = [IID_IDgnAppSupport]
    ∧ (((_natlink_IID_Lookup I m).1 = 1 ∧ (_natlink_IID_Lookup I m).2 = 0)
        ↔ I = IID_IDgnAppSupport)
    ∧ (I ≠ IID_IDgnAppSupport → (_natlink_IID_Lookup I m).1 = 0) := by
  refine ⟨rfl, ?_, ?_⟩ <;>
    by_cases h : I = IID_IDgnAppSupport <;> simp [natlink_IID_Lookup_eq, h]

/-- Witness for C1 at the registered IID and at `IID_IDispatch`. -/
theorem natlink_IID_Lookup_success_iff_witness :
    (_natlink_IID_Lookup IID_IDgnAppSupport 5).1 = 1
    ∧ (_natlink_IID_Lookup IID_IDispatch 5).1 = 0 :=
  ⟨((natlink_IID_Lookup_success_iff IID_IDgnAppSupport 5).2.1.mpr rfl).1,
   (natlink_IID_Lookup_success_iff IID_IDispatch 5).2.2 (by decide)⟩

/-- Counterexample to C2 as stated: on a non-matching identity
(`IID_IUnknown`, with the out-cell previously holding 5) the lookup does
return NotFound (0), but it does not set the index to the -1 sentinel:
the cell still holds 5. -/
theorem natlink_IID_Lookup_sentinel_counterexample :
    (_natlink_IID_Lookup IID_IUnknown 5).1 = 0
    ∧ (_natlink_IID_Lookup IID_IUnknown 5).2 ≠ -1 := by decide

/-- Claim C2 (amended): when the identity lookup finds no match it fails
by returning NotFound (0) and leaves the caller's index cell unchanged —
it never writes a -1 sentinel, and (being total) it never crashes. -/
theorem natlink_IID_Lookup_notfound_no_write (I : IID) (m : Int)
    (h : I ≠ IID_IDgnAppSupport) : _natlink_IID_Lookup I m = (0, m) := by
  simp [natlink_IID_Lookup_eq, h]

/-- Witness for the amended C2 at `IID_IUnknown` with prior cell value 7. -/
theorem natlink_IID_Lookup_notfound_no_write_witness :
    IID_IUnknown ≠ IID_IDgnAppSupport ∧ _natlink_IID_Lookup IID_IUnknown 7 = (0, 7) :=
  ⟨by decide, natlink_IID_Lookup_notfound_no_write IID_IUnknown 7 (by decide)⟩

/-- Claim C3: stub dispatch on `_IDgnAppSupportStubVtbl` forwards every
ordinal `0 ≤ k < 7` to the generic base-capability handler; every
`k ≥ 7` or `k < 0` fails with OrdinalOutOfRange, and in particular no
argument deserialization (`customInvoke`) is ever attempted there. -/
theorem stubDispatch_ordinal_range (k : Int) :
    (0 ≤ k → k < 7 → stubDispatch _IDgnAppSupportStubVtbl k = .forwardedToBase)
    ∧ (k < 0 ∨ 7 ≤ k →
        stubDispatch _IDgnAppSupportStubVtbl k = .ordinalOutOfRange
        ∧ ∀ off, stubDispatch _IDgnAppSupportStubVtbl k ≠ .customInvoke off) := by
  constructor
  · intro h0 h7
    interval_cases k <;> decide
  · intro h
    have hout : stubDispatch _IDgnAppSupportStubVtbl k = .ordinalOutOfRange := by
      have hc : ((_IDgnAppSupportStubVtbl.DispatchTableCount : Nat) : Int) = 7 := rfl
      unfold stubDispatch
      rw [if_pos]
      rw [hc]
      omega
    exact ⟨hout, fun off => by rw [hout]; exact fun hcon => DispatchOutcome.noConfusion hcon⟩

/-- Witness for C3 at ordinals 4 (in range), 7 and -1 (out of range). -/
theorem stubDispatch_ordinal_range_witness :
    stubDispatch _IDgnAppSupportStubVtbl 4 = .forwardedToBase
    ∧ stubDispatch _IDgnAppSupportStubVtbl 7 = .ordinalOutOfRange
    ∧ stubDispatch _IDgnAppSupportStubVtbl (-1) = .ordinalOutOfRange :=
  ⟨(stubDispatch_ordinal_range 4).1 (by decide) (by decide),
   ((stubDispatch_ordinal_range 7).2 (by omega)).1,
   ((stubDispatch_ordinal_range (-1)).2 (by omega)).1⟩

/-- Claim C4: the interface's method table has exactly 7 slots — the 3
base-capability (`IUnknown`) slots followed by the 4 dispatch-capability
(`IDispatch`) slots — and 0 custom interface-specific methods, on both
the proxy side and the stub side (whose delegating table covers exactly
the 4 dispatch slots). -/
theorem IDgnAppSupport_method_table_shape :
    _IDgnAppSupportProxyVtbl.Vtbl.length = 7
    ∧ _IDgnAppSupportProxyVtbl.Vtbl.take 3 =
        [some .IUnknown_QueryInterface_Proxy, some .IUnknown_AddRef_Proxy,
         some .IUnknown_Release_Proxy]
    ∧ _IDgnAppSupportProxyVtbl.Vtbl.drop 3 = [none, none, none, none]
    ∧ _IDgnAppSupportStubVtbl.DispatchTableCount = 7
    ∧ IDgnAppSupport_table.length = 4
    ∧ _IDgnAppSupportProxyVtbl.Vtbl.length = 3 + IDgnAppSupport_table.length + 0 := by
  decide

/-- Claim C5: proxy slots 0-2 hold exactly the generic base-capability
routines (queryInterface, addRef, release) and invoking them delegates
there; the four dispatch-capability slots 3-6 are unset (`none`), and
invoking any of them fails rather than performing any marshaling. -/
theorem IDgnAppSupport_proxy_slots :
    proxyInvoke _IDgnAppSupportProxyVtbl 0 = .delegated .IUnknown_QueryInterface_Proxy
    ∧ proxyInvoke _IDgnAppSupportProxyVtbl 1 = .delegated .IUnknown_AddRef_Proxy
    ∧ proxyInvoke _IDgnAppSupportProxyVtbl 2 = .delegated .IUnknown_Release_Proxy
    ∧ _IDgnAppSupportProxyVtbl.Vtbl.get? 3 = some none
    ∧ _IDgnAppSupportProxyVtbl.Vtbl.get? 4 = some none
    ∧ _IDgnAppSupportProxyVtbl.Vtbl.get? 5 = some none
    ∧ _IDgnAppSupportProxyVtbl.Vtbl.get? 6 = some none
    ∧ proxyInvoke _IDgnAppSupportProxyVtbl 3 = .failedUnset
    ∧ proxyInvoke _IDgnAppSupportProxyVtbl 4 = .failedUnset
    ∧ proxyInvoke _IDgnAppSupportProxyVtbl 5 = .failedUnset
    ∧ proxyInvoke _IDgnAppSupportProxyVtbl 6 = .failedUnset := by
  decide

/-- Counterexample to C6 as stated: the format strings are not
zero-length — the proc format string is 1 byte and the type format
string is 3 bytes (the sizes the source itself declares). -/
theorem natlink_formatString_zero_length_counterexample :
    ¬ (natlink__MIDL_ProcFormatString.Format.length = 0
       ∧ natlink__MIDL_TypeFormatString.Format.length = 0)
    ∧ natlink__MIDL_ProcFormatString.Format.length = PROC_FORMAT_STRING_SIZE
    ∧ natlink__MIDL_TypeFormatString.Format.length = TYPE_FORMAT_STRING_SIZE
    ∧ PROC_FORMAT_STRING_SIZE = 1 ∧ TYPE_FORMAT_STRING_SIZE = 3 := by decide

/-- Claim C6 (amended): the format strings contain no method marshaling
descriptions — only zero padding/terminator bytes — and every
dispatchable slot's offset entry is the `-1` delegation sentinel, so
every method ordinal (0-6) falls back to generic delegation and none has
a custom marshaling description. -/
theorem natlink_formatString_no_custom_descriptions :
    natlink__MIDL_ProcFormatString.Format = [0]
    ∧ natlink__MIDL_TypeFormatString.Format = [0, 0, 0]
    ∧ IDgnAppSupport_FormatStringOffsetTable.take 4 = [65535, 65535, 65535, 65535]
    ∧ ((List.range 7).all fun k =>
        decide (stubDispatch _IDgnAppSupportStubVtbl (k : Int) =
          DispatchOutcome.forwardedToBase)) = true := by decide

/-- Claim C7: the identity lookup is idempotent and deterministic —
rerunning it on its own post-state changes nothing, and its verdict does
not depend on the contents of the out-cell. -/
theorem natlink_IID_Lookup_idempotent (I : IID) (m m2 : Int) :
    _natlink_IID_Lookup I (_natlink_IID_Lookup I m).2 = _natlink_IID_Lookup I m
    ∧ (_natlink_IID_Lookup I m).1 = (_natlink_IID_Lookup I m2).1 := by
  by_cases h : I = IID_IDgnAppSupport <;> simp [natlink_IID_Lookup_eq, h]

/-- The transfer syntax the spec prescribes, following its words: GUID
`{8a885d04-1ceb-11c9-9fe8-08002b104860}`, version 2.0. -/
def spec_transferSyntax : RPC_SYNTAX_IDENTIFIER :=
  ⟨⟨0x8a885d04, 0x1ceb, 0x11c9, [0x9f, 0xe8, 0x08, 0x00, 0x2b, 0x10, 0x48, 0x60]⟩, ⟨2, 0⟩⟩

/-- Claim C8: the transfer syntax identifier used for wire-encoding
negotiation is exactly the GUID `{8a885d04-1ceb-11c9-9fe8-08002b104860}`
with version 2.0. -/
theorem RpcTransferSyntax_matches_spec : _RpcTransferSyntax = spec_transferSyntax := by
  decide

/-- Claim C9: with a host/target capability version below the NT 6.0
(Vista) minimum, the translation unit's version gate fails with a
version-mismatch error, and no proxy/stub table object is produced. -/
theorem natlink_version_gate (w : Nat) (h : w < 0x600) :
    natlink_module w = .error .versionMismatch
    ∧ ∀ info, natlink_module w ≠ .ok info := by
  have hf : TARGET_IS_NT60_OR_LATER w = false := by
    simp only [TARGET_IS_NT60_OR_LATER, decide_eq_false_iff_not]
    omega
  refine ⟨?_, ?_⟩
  · simp [natlink_module, hf]
  · intro info
    simp [natlink_module, hf]

/-- Witness for C9 at the Windows XP tier (0x501). -/
theorem natlink_version_gate_witness :
    (0x501 : Nat) < 0x600 ∧ natlink_module 0x501 = .error .versionMismatch :=
  ⟨by norm_num, (natlink_version_gate 0x501 (by norm_num)).1⟩

/-- Claim C10: the lookup writes through its out-cell only on success,
setting it to 0 (the only valid index); on failure the cell's previous
contents are preserved. -/
theorem natlink_IID_Lookup_frame (I : IID) (m : Int) :
    (I = IID_IDgnAppSupport → _natlink_IID_Lookup I m = (1, 0))
    ∧ (I ≠ IID_IDgnAppSupport → (_natlink_IID_Lookup I m).2 = m) := by
  by_cases h : I = IID_IDgnAppSupport <;> simp [natlink_IID_Lookup_eq, h]

/-- Witness for C10 on both branches. -/
theorem natlink_IID_Lookup_frame_witness :
    _natlink_IID_Lookup IID_IDgnAppSupport 9 = (1, 0)
    ∧ (_natlink_IID_Lookup IID_IDispatch 9).2 = 9 :=
  ⟨(natlink_IID_Lookup_frame IID_IDgnAppSupport 9).1 rfl,
   (natlink_IID_Lookup_frame IID_IDispatch 9).2 (by decide)⟩
